import Mathlib

/-!
Verification development for the slack-mcp-server repository.

The definitions below are a shallow embedding of the Go sources:
`pkg/server/server.go` (tool registration, gating, middleware, validation)
and `pkg/handler/saved.go` (saved-items handlers).  Environment lookups
are modelled as a function `String → String` (Go's `os.Getenv` returns
the empty string for unset variables), backend calls as explicit function
parameters, and Go `(result, error)` pairs as `Except`/`Option` values.
-/

namespace SlackMcp

/-! ## Go standard-library string helpers -/

/-- Whether `p` is a leading segment of `l` (char-list version of Go's prefix test). -/
def leadsWith : List Char → List Char → Bool
  | [], _ => true
  | _ :: _, [] => false
  | a :: as, b :: bs => a == b && leadsWith as bs

/-- Whether `sub` occurs contiguously inside `s` (char-list scan). -/
def hasSubstring : List Char → List Char → Bool
  | [], sub => sub.isEmpty
  | c :: tail, sub => leadsWith sub (c :: tail) || hasSubstring tail sub

/-- Go's `strings.Contains s sub`. -/
def goContains (s sub : String) : Bool :=
  hasSubstring s.data sub.data

/-! ## Tool-name constants (`pkg/server/server.go` const block) -/

def ToolConversationsHistory : String := "conversations_history"

def ToolConversationsReplies : String := "conversations_replies"

def ToolConversationsAddMessage : String := "conversations_add_message"

def ToolReactionsAdd : String := "reactions_add"

def ToolReactionsRemove : String := "reactions_remove"

def ToolAttachmentGetData : String := "attachment_get_data"

def ToolConversationsSearchMessages : String := "conversations_search_messages"

def ToolChannelsList : String := "channels_list"

def ToolUsergroupsList : String := "usergroups_list"

def ToolUsergroupsMe : String := "usergroups_me"

def ToolUsergroupsCreate : String := "usergroups_create"

def ToolUsergroupsUpdate : String := "usergroups_update"

def ToolUsergroupsUsersUpdate : String := "usergroups_users_update"

def ToolSavedList : String := "saved_list"

def ToolSavedComplete : String := "saved_complete"

/-- `ValidToolNames` from `pkg/server/server.go`. -/
def ValidToolNames : List String :=
  [ToolConversationsHistory,
   ToolConversationsReplies,
   ToolConversationsAddMessage,
   ToolReactionsAdd,
   ToolReactionsRemove,
   ToolAttachmentGetData,
   ToolConversationsSearchMessages,
   ToolChannelsList,
   ToolUsergroupsList,
   ToolUsergroupsMe,
   ToolUsergroupsCreate,
   ToolUsergroupsUpdate,
   ToolUsergroupsUsersUpdate,
   ToolSavedList,
   ToolSavedComplete]

/-! ## `ValidateEnabledTools` (`pkg/server/server.go`)

The Go code builds a membership set from `ValidToolNames`, collects the
input names missing from it (in input order, duplicates kept) and, when
any exist, returns an error whose message joins them with `", "`. -/

/-- `ValidateEnabledTools` from `pkg/server/server.go`; `some msg` models a
non-nil Go `error` with message `msg`, `none` models a nil error. -/
def ValidateEnabledTools (tools : List String) : Option String :=
  let invalidTools := tools.filter (fun tool => !(ValidToolNames.contains tool))
  if invalidTools.length > 0 then
    some ("invalid tool name(s): " ++ String.intercalate ", " invalidTools ++
      ". Valid tools are: " ++ String.intercalate ", " ValidToolNames)
  else
    none

/-! ## `shouldAddTool` (`pkg/server/server.go`) -/

/-- `shouldAddTool` from `pkg/server/server.go`.  `env` models `os.Getenv`. -/
def shouldAddTool (env : String → String) (name : String) (enabledTools : List String)
    (envVarName : String) : Bool :=
  if envVarName == "" then
    if enabledTools.length == 0 then
      true
    else
      enabledTools.contains name
  else
    if enabledTools.length > 0 && enabledTools.contains name then
      true
    else if enabledTools.length == 0 then
      env envVarName != ""
    else
      false

/-! ## Tool registration (`NewMCPServer` in `pkg/server/server.go`)

Each `s.AddTool` call in `NewMCPServer` is guarded by `shouldAddTool` with
the env-var name written at that call site; the search tool is additionally
guarded by `!provider.IsBotToken()`, and `users_search` is registered
unconditionally. -/

/-- The list of tool names registered by `NewMCPServer`, in registration
order, as a function of the environment, the bot-token flag and the
enabled-tools allow-list. -/
def registeredTools (env : String → String) (isBotToken : Bool)
    (enabledTools : List String) : List String :=
  (if shouldAddTool env ToolConversationsHistory enabledTools "" then [ToolConversationsHistory] else []) ++
  (if shouldAddTool env ToolConversationsReplies enabledTools "" then [ToolConversationsReplies] else []) ++
  (if shouldAddTool env ToolConversationsAddMessage enabledTools "SLACK_MCP_ADD_MESSAGE_TOOL" then [ToolConversationsAddMessage] else []) ++
  (if shouldAddTool env ToolReactionsAdd enabledTools "SLACK_MCP_REACTION_TOOL" then [ToolReactionsAdd] else []) ++
  (if shouldAddTool env ToolReactionsRemove enabledTools "SLACK_MCP_REACTION_TOOL" then [ToolReactionsRemove] else []) ++
  (if shouldAddTool env ToolAttachmentGetData enabledTools "SLACK_MCP_ATTACHMENT_TOOL" then [ToolAttachmentGetData] else []) ++
  (if !isBotToken && shouldAddTool env ToolConversationsSearchMessages enabledTools "" then [ToolConversationsSearchMessages] else []) ++
  ["users_search"] ++
  (if shouldAddTool env ToolChannelsList enabledTools "" then [ToolChannelsList] else []) ++
  (if shouldAddTool env ToolUsergroupsList enabledTools "" then [ToolUsergroupsList] else []) ++
  (if shouldAddTool env ToolUsergroupsMe enabledTools "" then [ToolUsergroupsMe] else []) ++
  (if shouldAddTool env ToolUsergroupsCreate enabledTools "" then [ToolUsergroupsCreate] else []) ++
  (if shouldAddTool env ToolUsergroupsUpdate enabledTools "" then [ToolUsergroupsUpdate] else []) ++
  (if shouldAddTool env ToolUsergroupsUsersUpdate enabledTools "" then [ToolUsergroupsUsersUpdate] else []) ++
  (if shouldAddTool env ToolSavedList enabledTools "SLACK_MCP_SAVED_LIST_TOOL" then [ToolSavedList] else []) ++
  (if shouldAddTool env ToolSavedComplete enabledTools "SLACK_MCP_SAVED_COMPLETE_TOOL" then [ToolSavedComplete] else [])

/-- The environment variables consulted during tool registration (the
env-var names passed to `shouldAddTool` at the `s.AddTool` call sites). -/
def registrationEnvVars : List String :=
  ["SLACK_MCP_ADD_MESSAGE_TOOL",
   "SLACK_MCP_REACTION_TOOL",
   "SLACK_MCP_ATTACHMENT_TOOL",
   "SLACK_MCP_SAVED_LIST_TOOL",
   "SLACK_MCP_SAVED_COMPLETE_TOOL"]

/-! ## Error-recovery middleware (`pkg/server/server.go`)

`buildErrorRecoveryMiddleware` wraps every tool handler: a Go
`(*mcp.CallToolResult, error)` pair is modelled as
`Option CallToolResult × Option String` (`none` in the second component is
a nil error).  `mcp.NewToolResultError msg` is a result with
`isError = true` carrying `msg` as its text content. -/

/-- A tool call result: the `IsError` flag and the text content. -/
structure CallToolResult where
  isError : Bool
  text : String
  deriving DecidableEq

/-- `mcp.NewToolResultError` — an `isError` result carrying the message. -/
def mkToolResultError (msg : String) : CallToolResult :=
  { isError := true, text := msg }

/-- `isSlackAuthError` from `pkg/server/server.go`. -/
def isSlackAuthError (msg : String) : Bool :=
  ["invalid_auth", "not_authed", "token_expired", "token_revoked"].any
    (fun e => goContains msg e)

/-- The constant part of the augmented auth-failure message before the
original error message. -/
def authMessageHead : String := "Slack authentication failed ("

/-- The constant part of the augmented auth-failure message after the
original error message. -/
def authMessageTail : String :=
  "). Your xoxc/xoxd browser session tokens have expired. " ++
  "Run the /slack-token-refresh skill to automatically refresh them."

/-- The actionable token-refresh message built by the middleware via
`fmt.Sprintf` around the original error message. -/
def authAugmentMessage (msg : String) : String :=
  authMessageHead ++ msg ++ authMessageTail

/-- The message the middleware reports for a handler error: augmented when
`isSlackAuthError` holds, otherwise the original message. -/
def recoverAuthMessage (msg : String) : String :=
  if isSlackAuthError msg then authAugmentMessage msg else msg

/-- The wrapped handler body of `buildErrorRecoveryMiddleware`, as a
function of the inner handler's `(result, error)` pair. -/
def errorRecoveryMiddleware (res : Option CallToolResult) (err : Option String) :
    Option CallToolResult × Option String :=
  match err with
  | some msg => (some (mkToolResultError (recoverAuthMessage msg)), none)
  | none => (res, none)

/-! ## Startup tail of `NewMCPServer` (`pkg/server/server.go`)

After tool registration, `NewMCPServer` calls `provider.Slack().AuthTest()`
and `text.Workspace(ar.URL)`; each failure is a `logger.Fatal` (process
termination).  Both calls happen at startup, before any transport serves
requests. -/

/-- The fields of the `AuthTest` response read by `NewMCPServer`. -/
structure AuthTestResponse where
  team : String
  user : String
  enterpriseID : String
  url : String

/-- How the startup tail of `NewMCPServer` ends: a fatal exit on an
`AuthTest` failure, a fatal exit on a workspace-parse failure, or a
constructed running server. -/
inductive StartupOutcome where
  | fatalAuthFailed : StartupOutcome
  | fatalWorkspaceParse : StartupOutcome
  | started : StartupOutcome
  deriving DecidableEq

/-- The startup tail of `NewMCPServer`: `authTest` models
`provider.Slack().AuthTest()` and `workspaceOf` models `text.Workspace`. -/
def newMCPServerStartup (authTest : Except String AuthTestResponse)
    (workspaceOf : String → Except String String) : StartupOutcome :=
  match authTest with
  | .error _ => .fatalAuthFailed
  | .ok ar =>
    match workspaceOf ar.url with
    | .error _ => .fatalWorkspaceParse
    | .ok _ => .started

/-! ## Saved-items handlers (`pkg/handler/saved.go`) -/

/-- The fields of `provider.SavedItem` read by the saved-items handlers. -/
structure SavedItem where
  itemID : String
  ts : String
  state : String
  dateCreated : Int
  dateDue : Int
  deriving DecidableEq

/-- The pagination metadata of a `saved.list` response. -/
structure SavedResponseMetadata where
  nextCursor : String
  deriving DecidableEq

/-- One `SavedListContext` response: a page of items plus metadata. -/
structure SavedListResponse where
  savedItems : List SavedItem
  responseMetadata : SavedResponseMetadata
  deriving DecidableEq

/-- The pagination loop of `SavedListHandler`: starting from `cursor`, it
calls the backend, appends the page's items, stops when the response's
next-cursor is empty and otherwise continues from that next-cursor.  The
fuel argument bounds the number of backend calls; `none` models a run that
does not finish within the given fuel. -/
def savedListFetchAll (backend : String → SavedListResponse) :
    Nat → String → Option (List SavedItem)
  | 0, _ => none
  | fuel + 1, cursor =>
    let result := backend cursor
    if result.responseMetadata.nextCursor == "" then
      some result.savedItems
    else
      match savedListFetchAll backend fuel result.responseMetadata.nextCursor with
      | some rest => some (result.savedItems ++ rest)
      | none => none

/-- The responses `rs` are exactly the pages the backend hands out when the
loop starts from cursor `c`: each page is the backend's answer for the
cursor reached so far, every page but the last has a non-empty next-cursor,
and the last page's next-cursor is empty. -/
def savedChain (backend : String → SavedListResponse) :
    String → List SavedListResponse → Prop
  | _, [] => False
  | c, [r] => backend c = r ∧ r.responseMetadata.nextCursor = ""
  | c, r :: r' :: rs =>
    backend c = r ∧ r.responseMetadata.nextCursor ≠ "" ∧
      savedChain backend r.responseMetadata.nextCursor (r' :: rs)

/-- `SavedCompleteHandler` from `pkg/handler/saved.go`.  The first component
models the Go `(result, error)` pair (`Except.error` = non-nil error with
that message, `Except.ok` = text tool result); the second component records
whether `SavedCompleteContext` was invoked. -/
def savedCompleteHandler (savedComplete : String → String → Except String Unit)
    (channel ts : String) : Except String String × Bool :=
  if channel == "" then
    (.error "channel is required", false)
  else if ts == "" then
    (.error "ts is required", false)
  else
    match savedComplete channel ts with
    | .error e => (.error e, true)
    | .ok _ => (.ok "Item marked as complete.", true)

/-! ## `fetchMessageText` (`pkg/handler/saved.go`)

`fetchMessageText` fetches one message via `GetConversationHistoryContext`,
resolves the author through the users cache, rewrites Slack link markup
with `slackLinkRe.ReplaceAllString(text, "$1")` where
`slackLinkRe = <([^|>]+)\|?[^>]*>`, and replaces newlines with spaces.

The regex replacement is embedded as a left-to-right scanner.  Go's regexp
finds the leftmost match of `<([^|>]+)\|?[^>]*>`: a `<`, a non-empty run of
characters other than `|` and `>` (the capture), an optional `|`, a run of
characters other than `>`, and a closing `>`; the whole match is replaced
by the capture.  Because the character classes are disjoint from the
delimiters that follow them, greedy matching never needs to backtrack, so
the scanner below is equivalent: it commits to a candidate match at each
`<` and, on failure (which can only happen at end of input, where no
further match can start inside the buffered text), emits the buffered text
verbatim. -/

/-- Scanner state for the `slackLinkRe` replacement: outside any candidate
match; after `<` accumulating the capture group `[^|>]+`; or after the
optional `|` accumulating the `[^>]*` run, remembering the capture. -/
inductive ScanState where
  | outside : ScanState
  | insideUrl : List Char → ScanState
  | insideLabel : List Char → List Char → ScanState
  deriving DecidableEq

/-- Text emitted for an unfinished candidate match at end of input (the
regex match failed, so the consumed characters stand unchanged). -/
def linkFlush : ScanState → List Char
  | .outside => []
  | .insideUrl buf => '<' :: buf
  | .insideLabel cap buf => '<' :: (cap ++ '|' :: buf)

/-- One left-to-right pass of `slackLinkRe.ReplaceAllString(s, "$1")` over
the character list. -/
def linkScan : ScanState → List Char → List Char
  | st, [] => linkFlush st
  | .outside, c :: cs =>
    if c = '<' then linkScan (.insideUrl []) cs
    else c :: linkScan .outside cs
  | .insideUrl buf, c :: cs =>
    if c = '>' then
      if buf.isEmpty then '<' :: '>' :: linkScan .outside cs
      else buf ++ linkScan .outside cs
    else if c = '|' then
      if buf.isEmpty then '<' :: '|' :: linkScan .outside cs
      else linkScan (.insideLabel buf []) cs
    else
      linkScan (.insideUrl (buf ++ [c])) cs
  | .insideLabel cap buf, c :: cs =>
    if c = '>' then cap ++ linkScan .outside cs
    else linkScan (.insideLabel cap (buf ++ [c])) cs

/-- Go's `strings.ReplaceAll(text, "\n", " ")` acts on each character. -/
def newlineToSpace (c : Char) : Char :=
  if c = '\n' then ' ' else c

/-- The message-text cleanup of `fetchMessageText` on a character list:
link markup replaced by the capture, then newlines replaced by spaces. -/
def cleanList (cs : List Char) : List Char :=
  (linkScan .outside cs).map newlineToSpace

/-- The message-text cleanup of `fetchMessageText` on a string. -/
def cleanMessageText (s : String) : String :=
  String.mk (cleanList s.data)

/-- The fields of a Slack history message read by `fetchMessageText`. -/
structure HistoryMessage where
  user : String
  text : String
  deriving DecidableEq

/-- The fields of a cached user record read by `fetchMessageText`. -/
structure CachedUser where
  realName : String
  deriving DecidableEq

/-- The users cache: `Users` is a map from user ID to user record. -/
structure UsersCache where
  users : String → Option CachedUser

/-- `slack.GetConversationHistoryParameters` as filled by
`fetchMessageText`. -/
structure GetConversationHistoryParameters where
  channelID : String
  latest : String
  oldest : String
  limit : Nat
  inclusive : Bool
  deriving DecidableEq

/-- A `GetConversationHistoryContext` response: the message list. -/
structure ConversationHistory where
  messages : List HistoryMessage
  deriving DecidableEq

/-- The author-name resolution of `fetchMessageText`: the cached record's
`RealName` when the cache is present and knows the user, otherwise the raw
user ID.  A `none` cache models a nil `usersCache` pointer. -/
def resolveUserName (usersCache : Option UsersCache) (userID : String) : String :=
  match usersCache with
  | none => userID
  | some cache =>
    match cache.users userID with
    | some u => u.realName
    | none => userID

/-- `fetchMessageText` from `pkg/handler/saved.go`: `getHistory` models
`GetConversationHistoryContext` (an `Except.error` is a non-nil Go error). -/
def fetchMessageText
    (getHistory : GetConversationHistoryParameters → Except String ConversationHistory)
    (channelID ts : String) (usersCache : Option UsersCache) : String × String :=
  let params : GetConversationHistoryParameters :=
    { channelID := channelID, latest := ts, oldest := ts, limit := 1, inclusive := true }
  match getHistory params with
  | .error _ => ("", "")
  | .ok history =>
    match history.messages with
    | [] => ("", "")
    | msg :: _ => (resolveUserName usersCache msg.user, cleanMessageText msg.text)

/-! ## Startup readiness policy (transport warm-up)

Modelled from the spec: the composition root (`cmd/slack-mcp-server/main.go`)
and the `ApiProvider` readiness checks are not under `src/`; only the spec
and the architecture guide describe them.  Per the spec, in the pipe-based
`stdio` transport the composition root blocks until both directory caches
report ready before accepting operations, while the `sse` and `http`
transports start immediately and cache-dependent reads return a retryable
`NotReady` error until warm-up completes. -/

/-- Modelled from the spec: the three MCP transport modes selected by the
composition root (`main.go`, not under `src/`). -/
inductive McpTransport where
  | stdio : McpTransport
  | sse : McpTransport
  | streamableHttp : McpTransport
  deriving DecidableEq

/-- Modelled from the spec: readiness of the two directory caches
(`IsReady()` of the users and channels directories). -/
structure CacheWarmState where
  usersReady : Bool
  channelsReady : Bool
  deriving DecidableEq

/-- Modelled from the spec: whether the composition root accepts operations
while warm-up is in the given state — `stdio` blocks until both caches are
ready, the handshake transports accept immediately. -/
def startupAcceptsOperations (t : McpTransport) (w : CacheWarmState) : Bool :=
  match t with
  | .stdio => w.usersReady && w.channelsReady
  | .sse => true
  | .streamableHttp => true

/-- Modelled from the spec: the outcome of a cache-dependent read
operation. -/
inductive CacheReadOutcome where
  | notReadyRetryable : CacheReadOutcome
  | ok : CacheReadOutcome
  deriving DecidableEq

/-- Modelled from the spec: a cache-dependent read returns a retryable
`NotReady` error until both caches are warm. -/
def cacheReadOutcome (w : CacheWarmState) : CacheReadOutcome :=
  if w.usersReady && w.channelsReady then .ok else .notReadyRetryable

/-! ## Concrete instances used by witnesses -/

/-- A concrete environment with exactly one variable set. -/
def witEnv : String → String :=
  fun v => if v == "E1" then "set" else ""

/-- A concrete environment agreeing with `witEnv` on the registration
variables but differing elsewhere. -/
def witEnv2 : String → String :=
  fun v => if v == "SOME_OTHER_VAR" then "zzz" else witEnv v

/-- A saved item used in witnesses. -/
def savedItemA : SavedItem := { itemID := "C1", ts := "1.1", state := "in_progress", dateCreated := 1, dateDue := 2 }

/-- A second saved item used in witnesses. -/
def savedItemB : SavedItem := { itemID := "C2", ts := "2.2", state := "completed", dateCreated := 3, dateDue := 0 }

/-- First backend page for the pagination witness (non-empty next-cursor). -/
def savedPageA : SavedListResponse := { savedItems := [savedItemA], responseMetadata := { nextCursor := "cursor2" } }

/-- Second backend page for the pagination witness (empty next-cursor). -/
def savedPageB : SavedListResponse := { savedItems := [savedItemB], responseMetadata := { nextCursor := "" } }

/-- A concrete two-page backend for the pagination witness. -/
def savedBackendW : String → SavedListResponse :=
  fun c => if c == "cursor2" then savedPageB else savedPageA

/-- A backend whose `SavedCompleteContext` always succeeds. -/
def savedOkBackend : String → String → Except String Unit :=
  fun _ _ => .ok ()

/-- A history backend that always fails. -/
def historyErrBackend : GetConversationHistoryParameters → Except String ConversationHistory :=
  fun _ => .error "boom"

/-- A history backend that returns no messages. -/
def historyEmptyBackend : GetConversationHistoryParameters → Except String ConversationHistory :=
  fun _ => .ok { messages := [] }

/-- A concrete history message with link markup and a newline. -/
def historyMsgW : HistoryMessage :=
  { user := "U123", text := "see <https://ex.com|link>\nbye" }

/-- A history backend returning exactly `historyMsgW`. -/
def historyMsgBackend : GetConversationHistoryParameters → Except String ConversationHistory :=
  fun _ => .ok { messages := [historyMsgW] }

/-- A users cache knowing exactly the user `U123`. -/
def usersCacheW : UsersCache :=
  { users := fun u => if u == "U123" then some { realName := "Alice Example" } else none }

/-! ## Shared helper lemmas -/

/-- `shouldAddTool` reads the environment only at its env-var name. -/
theorem shouldAddTool_env_congr (env1 env2 : String → String) (name : String)
    (tools : List String) (e : String) (h : env1 e = env2 e) :
    shouldAddTool env1 name tools e = shouldAddTool env2 name tools e := by
  unfold shouldAddTool
  rw [h]

/-- With an empty env-var name, `shouldAddTool` ignores the environment. -/
theorem shouldAddTool_envFree (env1 env2 : String → String) (name : String)
    (tools : List String) :
    shouldAddTool env1 name tools "" = shouldAddTool env2 name tools "" := by
  simp [shouldAddTool]

/-- The augmented auth message is strictly longer than the original, hence
never equal to it. -/
theorem authAugmentMessage_ne (msg : String) : authAugmentMessage msg ≠ msg := by
  intro h
  have hlen := congrArg String.length h
  rw [authAugmentMessage] at hlen
  simp only [String.length_append] at hlen
  have hhead : 0 < authMessageHead.length := by decide
  omega

/-- Characters without `<` pass through the outside scanner state
unchanged. -/
theorem linkScan_outside_append (pre rest : List Char) (h : ∀ c ∈ pre, c ≠ '<') :
    linkScan .outside (pre ++ rest) = pre ++ linkScan .outside rest := by
  induction pre with
  | nil => simp
  | cons c cs ih =>
    have hc : c ≠ '<' := h c (by simp)
    simp only [List.cons_append, linkScan, if_neg hc, List.append_eq]
    rw [ih (fun x hx => h x (by simp [hx]))]

/-- The capture-accumulation state consumes a run of non-`|`, non-`>`
characters into its buffer. -/
theorem linkScan_insideUrl_append (url : List Char) :
    ∀ (buf rest : List Char), (∀ c ∈ url, c ≠ '|' ∧ c ≠ '>') →
      linkScan (.insideUrl buf) (url ++ rest) = linkScan (.insideUrl (buf ++ url)) rest := by
  induction url with
  | nil => intro buf rest _; simp
  | cons c cs ih =>
    intro buf rest h
    have hc := h c (by simp)
    simp only [List.cons_append, linkScan, if_neg hc.2, if_neg hc.1, List.append_eq]
    rw [ih (buf ++ [c]) rest (fun x hx => h x (by simp [hx]))]
    simp [List.append_assoc]

/-- The label state consumes a run of non-`>` characters into its buffer. -/
theorem linkScan_insideLabel_append (label : List Char) :
    ∀ (cap buf rest : List Char), (∀ c ∈ label, c ≠ '>') →
      linkScan (.insideLabel cap buf) (label ++ rest) =
        linkScan (.insideLabel cap (buf ++ label)) rest := by
  induction label with
  | nil => intro cap buf rest _; simp
  | cons c cs ih =>
    intro cap buf rest h
    have hc : c ≠ '>' := h c (by simp)
    simp only [List.cons_append, linkScan, if_neg hc, List.append_eq]
    rw [ih cap (buf ++ [c]) rest (fun x hx => h x (by simp [hx]))]
    simp [List.append_assoc]

/-- A `<url>` occurrence is replaced by the bare `url`. -/
theorem linkScan_link_bare (url post : List Char) (hne : url ≠ [])
    (hok : ∀ c ∈ url, c ≠ '|' ∧ c ≠ '>') :
    linkScan .outside ('<' :: (url ++ '>' :: post)) = url ++ linkScan .outside post := by
  have hempty : url.isEmpty = false := by
    cases url with
    | nil => exact absurd rfl hne
    | cons a as => rfl
  simp only [linkScan, if_pos rfl]
  rw [linkScan_insideUrl_append url [] ('>' :: post) hok]
  simp [linkScan, hempty]

/-- A `<url|label>` occurrence is replaced by the bare `url`. -/
theorem linkScan_link_labeled (url label post : List Char) (hne : url ≠ [])
    (hok : ∀ c ∈ url, c ≠ '|' ∧ c ≠ '>') (hlab : ∀ c ∈ label, c ≠ '>') :
    linkScan .outside ('<' :: (url ++ '|' :: (label ++ '>' :: post))) =
      url ++ linkScan .outside post := by
  have hempty : url.isEmpty = false := by
    cases url with
    | nil => exact absurd rfl hne
    | cons a as => rfl
  simp only [linkScan, if_pos rfl]
  rw [linkScan_insideUrl_append url [] ('|' :: (label ++ '>' :: post)) hok]
  simp only [List.nil_append, linkScan, hempty]
  rw [linkScan_insideLabel_append label url [] ('>' :: post) hlab]
  simp [linkScan]

/-! ## Claim theorems -/

/-- C4: the explicit allow-list overrides default gating in `shouldAddTool`:
a listed tool is registered regardless of its env var; with an empty
allow-list an env-var-gated tool follows `getenv(E) != ""`; a non-empty
allow-list not naming the tool rejects it even when the env var is set;
and a tool with no env var is registered iff the allow-list is empty or
names it. -/
theorem shouldAddTool_spec (env : String → String) (name : String)
    (enabledTools : List String) (envVarName : String) :
    (enabledTools.contains name = true →
      shouldAddTool env name enabledTools envVarName = true) ∧
    (enabledTools = [] → envVarName ≠ "" →
      shouldAddTool env name enabledTools envVarName = (env envVarName != "")) ∧
    (enabledTools ≠ [] → enabledTools.contains name = false →
      shouldAddTool env name enabledTools envVarName = false) ∧
    (envVarName = "" →
      (shouldAddTool env name enabledTools envVarName = true ↔
        (enabledTools = [] ∨ enabledTools.contains name = true))) := by
  refine ⟨?_, ?_, ?_, ?_⟩
  · intro h
    rcases enabledTools with _ | ⟨a, as⟩
    · simp at h
    · have hm : name = a ∨ name ∈ as := by simpa using h
      by_cases he : envVarName = "" <;> simp [shouldAddTool, he] <;> exact hm
  · intro h he
    subst h
    simp [shouldAddTool, he]
  · intro hne hc
    rcases enabledTools with _ | ⟨a, as⟩
    · exact absurd rfl hne
    · have hm : ¬name = a ∧ name ∉ as := by simpa using hc
      by_cases he : envVarName = "" <;> simp [shouldAddTool, he] <;> exact hm
  · intro he
    subst he
    rcases enabledTools with _ | ⟨a, as⟩ <;> simp [shouldAddTool]

/-- C4 witness: the four cases of `shouldAddTool_spec` at concrete inputs. -/
theorem shouldAddTool_spec_witness :
    shouldAddTool witEnv "reactions_add" ["reactions_add"] "E1" = true ∧
    shouldAddTool witEnv "reactions_add" [] "E1" = (witEnv "E1" != "") ∧
    shouldAddTool witEnv "reactions_add" ["channels_list"] "E1" = false ∧
    (shouldAddTool witEnv "reactions_add" [] "" = true ↔
      (([] : List String) = [] ∨ ([] : List String).contains "reactions_add" = true)) :=
  ⟨(shouldAddTool_spec witEnv "reactions_add" ["reactions_add"] "E1").1 (by decide),
   (shouldAddTool_spec witEnv "reactions_add" [] "E1").2.1 rfl (by decide),
   (shouldAddTool_spec witEnv "reactions_add" ["channels_list"] "E1").2.2.1
     (by decide) (by decide),
   (shouldAddTool_spec witEnv "reactions_add" [] "").2.2.2 rfl⟩

/-- C10: `ValidateEnabledTools` returns nil iff every input name is in
`ValidToolNames`; otherwise its error message lists exactly the input
names missing from `ValidToolNames` (in input order), followed by the
valid names. -/
theorem validateEnabledTools_spec (tools : List String) :
    (ValidateEnabledTools tools = none ↔ ∀ t ∈ tools, t ∈ ValidToolNames) ∧
    (tools.filter (fun t => !(ValidToolNames.contains t)) ≠ [] →
      ValidateEnabledTools tools =
        some ("invalid tool name(s): " ++
          String.intercalate ", " (tools.filter (fun t => !(ValidToolNames.contains t))) ++
          ". Valid tools are: " ++ String.intercalate ", " ValidToolNames)) := by
  have key : ValidateEnabledTools tools = none ↔
      tools.filter (fun t => !(ValidToolNames.contains t)) = [] := by
    simp only [ValidateEnabledTools]
    split
    · rename_i hlen
      constructor
      · intro hsome
        exact absurd hsome (by simp)
      · intro hnil
        rw [hnil] at hlen
        simp at hlen
    · rename_i hlen
      constructor
      · intro _
        have h0 : (tools.filter (fun t => !(ValidToolNames.contains t))).length = 0 := by
          omega
        exact List.eq_nil_of_length_eq_zero h0
      · intro _
        rfl
  constructor
  · rw [key, List.filter_eq_nil_iff]
    constructor
    · intro hall t ht
      have := hall t ht
      simp only [Bool.not_eq_true', Bool.not_eq_false] at this
      exact List.elem_iff.mp this
    · intro hall t ht
      simp only [Bool.not_eq_true', Bool.not_eq_false]
      exact List.elem_iff.mpr (hall t ht)
  · intro hne
    simp only [ValidateEnabledTools]
    split
    · rfl
    · rename_i hlen
      have h0 : (tools.filter (fun t => !(ValidToolNames.contains t))).length = 0 := by
        omega
      exact absurd (List.eq_nil_of_length_eq_zero h0) hne

/-- C10 witness: a fully valid list yields nil; an invalid name yields the
listing error message. -/
theorem validateEnabledTools_spec_witness :
    ValidateEnabledTools ["channels_list"] = none ∧
    ValidateEnabledTools ["bogus_tool"] =
      some ("invalid tool name(s): " ++
        String.intercalate ", " (["bogus_tool"].filter (fun t => !(ValidToolNames.contains t))) ++
        ". Valid tools are: " ++ String.intercalate ", " ValidToolNames) :=
  ⟨(validateEnabledTools_spec ["channels_list"]).1.mpr (by decide),
   (validateEnabledTools_spec ["bogus_tool"]).2 (by decide)⟩

/-- C2: on a handler error the middleware returns an `isError` tool result
with a nil error, and the reported message is the augmented token-refresh
message exactly when the handler's message contains one of the four auth
substrings, the original message otherwise. -/
theorem errorRecovery_spec (msg : String) (res : Option CallToolResult) :
    errorRecoveryMiddleware res (some msg) =
      (some { isError := true, text := recoverAuthMessage msg }, none) ∧
    (recoverAuthMessage msg = authAugmentMessage msg ↔ isSlackAuthError msg = true) ∧
    (isSlackAuthError msg = false → recoverAuthMessage msg = msg) := by
  refine ⟨rfl, ?_, ?_⟩
  · cases h : isSlackAuthError msg
    · simp only [recoverAuthMessage, h, Bool.false_eq_true, if_false]
      constructor
      · intro heq
        exact absurd heq.symm (authAugmentMessage_ne msg)
      · intro hcontra
        exact absurd hcontra (by simp)
    · simp [recoverAuthMessage, h]
  · intro h
    simp [recoverAuthMessage, h]

/-- C2 witness: a non-auth error passes through unchanged as an `isError`
result with nil error. -/
theorem errorRecovery_spec_witness :
    errorRecoveryMiddleware none (some "request failed") =
      (some { isError := true, text := recoverAuthMessage "request failed" }, none) ∧
    recoverAuthMessage "request failed" = "request failed" :=
  ⟨(errorRecovery_spec "request failed" none).1,
   (errorRecovery_spec "request failed" none).2.2 (by decide)⟩

/-- C3: after startup no error terminates the process — the error-recovery
middleware always returns a nil error — and the startup tail of
`NewMCPServer` reaches the running state whenever its two startup checks
succeed, so the only fatal exits are the startup ones. -/
theorem noFatalAfterStartup :
    (∀ (res : Option CallToolResult) (err : Option String),
      (errorRecoveryMiddleware res err).2 = none) ∧
    (∀ (ar : AuthTestResponse) (workspaceOf : String → Except String String) (ws : String),
      workspaceOf ar.url = .ok ws →
      newMCPServerStartup (.ok ar) workspaceOf = .started) := by
  constructor
  · intro res err
    cases err <;> rfl
  · intro ar workspaceOf ws h
    simp [newMCPServerStartup, h]

/-- C3 witness: a successful auth test and workspace parse start the
server. -/
theorem noFatalAfterStartup_witness :
    newMCPServerStartup
      (.ok { team := "T", user := "U", enterpriseID := "", url := "https://x.slack.com/" })
      (fun _ => .ok "x") = .started :=
  noFatalAfterStartup.2
    { team := "T", user := "U", enterpriseID := "", url := "https://x.slack.com/" }
    (fun _ => .ok "x") "x" rfl

/-- C8: `SavedCompleteHandler` rejects an empty channel with
"channel is required" and an empty ts with "ts is required", in both cases
without calling `SavedCompleteContext`; with both parameters non-empty and
a successful backend call it returns exactly "Item marked as complete.". -/
theorem savedComplete_spec (backend : String → String → Except String Unit)
    (channel ts : String) :
    (channel = "" →
      savedCompleteHandler backend channel ts = (.error "channel is required", false)) ∧
    (channel ≠ "" → ts = "" →
      savedCompleteHandler backend channel ts = (.error "ts is required", false)) ∧
    (channel ≠ "" → ts ≠ "" → backend channel ts = .ok () →
      savedCompleteHandler backend channel ts = (.ok "Item marked as complete.", true)) := by
  refine ⟨?_, ?_, ?_⟩
  · intro h
    simp [savedCompleteHandler, h]
  · intro hc ht
    simp [savedCompleteHandler, hc, ht]
  · intro hc ht hb
    simp [savedCompleteHandler, hc, ht, hb]

/-- C8 witness: the three cases of `savedComplete_spec` at concrete
inputs. -/
theorem savedComplete_spec_witness :
    savedCompleteHandler savedOkBackend "" "1.2" = (.error "channel is required", false) ∧
    savedCompleteHandler savedOkBackend "C1" "" = (.error "ts is required", false) ∧
    savedCompleteHandler savedOkBackend "C1" "1.2" = (.ok "Item marked as complete.", true) :=
  ⟨(savedComplete_spec savedOkBackend "" "1.2").1 rfl,
   (savedComplete_spec savedOkBackend "C1" "").2.1 (by decide) rfl,
   (savedComplete_spec savedOkBackend "C1" "1.2").2.2 (by decide) (by decide) rfl⟩

/-- C7: modelled from the spec — the stdio transport accepts operations
only once both directory caches are ready, the SSE and HTTP transports
accept immediately, and a cache-dependent read yields a retryable
`NotReady` outcome exactly until both caches are warm. -/
theorem startupReadiness_spec (w : CacheWarmState) :
    startupAcceptsOperations .stdio w = (w.usersReady && w.channelsReady) ∧
    startupAcceptsOperations .sse w = true ∧
    startupAcceptsOperations .streamableHttp w = true ∧
    (cacheReadOutcome w = .ok ↔ (w.usersReady && w.channelsReady) = true) := by
  refine ⟨rfl, rfl, rfl, ?_⟩
  cases h : w.usersReady && w.channelsReady <;> simp [cacheReadOutcome, h]

/-- C1: with a bot token the full-text search tool is never registered,
for any allow-list and any environment; with a non-bot token it is
registered exactly when the default gating (`shouldAddTool` with no env
var) admits it. -/
theorem searchTool_gating (env : String → String) (enabledTools : List String) :
    ToolConversationsSearchMessages ∉ registeredTools env true enabledTools ∧
    (ToolConversationsSearchMessages ∈ registeredTools env false enabledTools ↔
      shouldAddTool env ToolConversationsSearchMessages enabledTools "" = true) := by
  constructor
  · intro h
    simp +decide [registeredTools, List.mem_append, List.mem_ite_nil_right,
      ToolConversationsHistory, ToolConversationsReplies, ToolConversationsAddMessage,
      ToolReactionsAdd, ToolReactionsRemove, ToolAttachmentGetData,
      ToolConversationsSearchMessages, ToolChannelsList, ToolUsergroupsList,
      ToolUsergroupsMe, ToolUsergroupsCreate, ToolUsergroupsUpdate,
      ToolUsergroupsUsersUpdate, ToolSavedList, ToolSavedComplete] at h
  · simp +decide [registeredTools, List.mem_append, List.mem_ite_nil_right,
      ToolConversationsHistory, ToolConversationsReplies, ToolConversationsAddMessage,
      ToolReactionsAdd, ToolReactionsRemove, ToolAttachmentGetData,
      ToolConversationsSearchMessages, ToolChannelsList, ToolUsergroupsList,
      ToolUsergroupsMe, ToolUsergroupsCreate, ToolUsergroupsUpdate,
      ToolUsergroupsUsersUpdate, ToolSavedList, ToolSavedComplete]

/-- C1 witness: concrete instances of both conjuncts. -/
theorem searchTool_gating_witness :
    ToolConversationsSearchMessages ∉ registeredTools witEnv true [] ∧
    (ToolConversationsSearchMessages ∈ registeredTools witEnv false [] ↔
      shouldAddTool witEnv ToolConversationsSearchMessages [] "" = true) :=
  ⟨(searchTool_gating witEnv []).1, (searchTool_gating witEnv []).2⟩

/-- C6: tool registration is a deterministic function of the configuration:
two environments that agree on the registration variables produce, for the
same credential kind and allow-list, exactly the same registered tool
list. -/
theorem registration_deterministic (env1 env2 : String → String) (isBot : Bool)
    (enabledTools : List String)
    (h : ∀ v ∈ registrationEnvVars, env1 v = env2 v) :
    registeredTools env1 isBot enabledTools = registeredTools env2 isBot enabledTools := by
  have h1 := h "SLACK_MCP_ADD_MESSAGE_TOOL" (by simp [registrationEnvVars])
  have h2 := h "SLACK_MCP_REACTION_TOOL" (by simp [registrationEnvVars])
  have h3 := h "SLACK_MCP_ATTACHMENT_TOOL" (by simp [registrationEnvVars])
  have h4 := h "SLACK_MCP_SAVED_LIST_TOOL" (by simp [registrationEnvVars])
  have h5 := h "SLACK_MCP_SAVED_COMPLETE_TOOL" (by simp [registrationEnvVars])
  unfold registeredTools
  rw [shouldAddTool_env_congr env1 env2 ToolConversationsAddMessage enabledTools _ h1,
    shouldAddTool_env_congr env1 env2 ToolReactionsAdd enabledTools _ h2,
    shouldAddTool_env_congr env1 env2 ToolReactionsRemove enabledTools _ h2,
    shouldAddTool_env_congr env1 env2 ToolAttachmentGetData enabledTools _ h3,
    shouldAddTool_env_congr env1 env2 ToolSavedList enabledTools _ h4,
    shouldAddTool_env_congr env1 env2 ToolSavedComplete enabledTools _ h5,
    shouldAddTool_envFree env1 env2 ToolConversationsHistory enabledTools,
    shouldAddTool_envFree env1 env2 ToolConversationsReplies enabledTools,
    shouldAddTool_envFree env1 env2 ToolConversationsSearchMessages enabledTools,
    shouldAddTool_envFree env1 env2 ToolChannelsList enabledTools,
    shouldAddTool_envFree env1 env2 ToolUsergroupsList enabledTools,
    shouldAddTool_envFree env1 env2 ToolUsergroupsMe enabledTools,
    shouldAddTool_envFree env1 env2 ToolUsergroupsCreate enabledTools,
    shouldAddTool_envFree env1 env2 ToolUsergroupsUpdate enabledTools,
    shouldAddTool_envFree env1 env2 ToolUsergroupsUsersUpdate enabledTools]

/-- C6 witness: two environments differing only outside the registration
variables register the same tools. -/
theorem registration_deterministic_witness :
    registeredTools witEnv false ["channels_list"] =
      registeredTools witEnv2 false ["channels_list"] :=
  registration_deterministic witEnv witEnv2 false ["channels_list"] (by decide)

/-- C5: the saved-items pagination loop follows the backend's next-cursors
to completion: if the backend hands out the page sequence `rs` starting
from cursor `c` (each page fetched at the previous page's next-cursor,
stopping exactly at the first empty next-cursor), the loop terminates
within `rs.length` calls and returns the concatenation of all pages'
items in fetch order. -/
theorem savedList_pagination (backend : String → SavedListResponse) (c : String)
    (rs : List SavedListResponse) (h : savedChain backend c rs) :
    savedListFetchAll backend rs.length c = some ((rs.map (fun r => r.savedItems)).flatten) := by
  induction rs generalizing c with
  | nil => exact absurd h (by simp [savedChain])
  | cons r rest ih =>
    cases rest with
    | nil =>
      obtain ⟨hb, hc⟩ := h
      simp [savedListFetchAll, hb, hc]
    | cons r2 rest2 =>
      obtain ⟨hb, hne, hchain⟩ := h
      have hrec := ih _ hchain
      show (if (backend c).responseMetadata.nextCursor == "" then
              some (backend c).savedItems
            else
              match savedListFetchAll backend (r2 :: rest2).length
                  (backend c).responseMetadata.nextCursor with
              | some rest => some ((backend c).savedItems ++ rest)
              | none => none) =
        some ((List.map (fun r => r.savedItems) (r :: r2 :: rest2)).flatten)
      rw [hb]
      rw [if_neg (by simp [hne] : ¬((r.responseMetadata.nextCursor == "") = true))]
      rw [hrec]
      simp

/-- C5 witness: a two-page backend chain accumulates both pages' items in
fetch order. -/
theorem savedList_pagination_witness :
    savedListFetchAll savedBackendW 2 "" =
      some (([savedPageA, savedPageB].map (fun r => r.savedItems)).flatten) :=
  savedList_pagination savedBackendW "" [savedPageA, savedPageB]
    ⟨by decide, by decide, by decide, by decide⟩

/-- C9: `fetchMessageText` is total and degrades to empty output — it
returns `("", "")` when the history fetch errors or yields no messages;
otherwise it returns the first message's author (resolved to the cached
`RealName` when the cache knows the user, else the raw user ID) and its
text with every `<url|label>` or `<url>` link markup replaced by the bare
url and every newline replaced by a space. -/
theorem fetchMessageText_spec :
    (∀ (getHistory : GetConversationHistoryParameters → Except String ConversationHistory)
        (channelID ts : String) (cache : Option UsersCache) (e : String),
      getHistory { channelID := channelID, latest := ts, oldest := ts, limit := 1, inclusive := true } = .error e →
      fetchMessageText getHistory channelID ts cache = ("", "")) ∧
    (∀ (getHistory : GetConversationHistoryParameters → Except String ConversationHistory)
        (channelID ts : String) (cache : Option UsersCache),
      getHistory { channelID := channelID, latest := ts, oldest := ts, limit := 1, inclusive := true } = .ok { messages := [] } →
      fetchMessageText getHistory channelID ts cache = ("", "")) ∧
    (∀ (getHistory : GetConversationHistoryParameters → Except String ConversationHistory)
        (channelID ts : String) (cache : Option UsersCache)
        (msg : HistoryMessage) (rest : List HistoryMessage),
      getHistory { channelID := channelID, latest := ts, oldest := ts, limit := 1, inclusive := true } = .ok { messages := msg :: rest } →
      fetchMessageText getHistory channelID ts cache =
        (resolveUserName cache msg.user, cleanMessageText msg.text)) ∧
    (∀ (cache : UsersCache) (u : String) (rec : CachedUser),
      cache.users u = some rec → resolveUserName (some cache) u = rec.realName) ∧
    (∀ (cache : UsersCache) (u : String),
      cache.users u = none → resolveUserName (some cache) u = u) ∧
    (∀ u : String, resolveUserName none u = u) ∧
    (∀ pre url label post : List Char,
      (∀ c ∈ pre, c ≠ '<') → url ≠ [] → (∀ c ∈ url, c ≠ '|' ∧ c ≠ '>') →
      (∀ c ∈ label, c ≠ '>') →
      cleanList (pre ++ '<' :: (url ++ '|' :: (label ++ '>' :: post))) =
        pre.map newlineToSpace ++ url.map newlineToSpace ++ cleanList post) ∧
    (∀ pre url post : List Char,
      (∀ c ∈ pre, c ≠ '<') → url ≠ [] → (∀ c ∈ url, c ≠ '|' ∧ c ≠ '>') →
      cleanList (pre ++ '<' :: (url ++ '>' :: post)) =
        pre.map newlineToSpace ++ url.map newlineToSpace ++ cleanList post) ∧
    (∀ cs : List Char, (cleanList cs).all (fun c => c != '\n') = true) := by
  refine ⟨?_, ?_, ?_, ?_, ?_, ?_, ?_, ?_, ?_⟩
  · intro getHistory channelID ts cache e h
    simp [fetchMessageText, h]
  · intro getHistory channelID ts cache h
    simp [fetchMessageText, h]
  · intro getHistory channelID ts cache msg rest h
    simp [fetchMessageText, h]
  · intro cache u rec h
    simp [resolveUserName, h]
  · intro cache u h
    simp [resolveUserName, h]
  · intro u
    rfl
  · intro pre url label post hpre hne hok hlab
    unfold cleanList
    rw [linkScan_outside_append pre ('<' :: (url ++ '|' :: (label ++ '>' :: post))) hpre]
    rw [linkScan_link_labeled url label post hne hok hlab]
    simp [List.map_append]
  · intro pre url post hpre hne hok
    unfold cleanList
    rw [linkScan_outside_append pre ('<' :: (url ++ '>' :: post)) hpre]
    rw [linkScan_link_bare url post hne hok]
    simp [List.map_append]
  · intro cs
    rw [List.all_eq_true]
    intro c hc
    unfold cleanList at hc
    obtain ⟨x, _, hx⟩ := List.mem_map.mp hc
    subst hx
    unfold newlineToSpace
    split
    · decide
    · rename_i hxne
      simpa using hxne

/-- C9 witness: the conjuncts of `fetchMessageText_spec` at concrete
backends, caches, messages and link texts. -/
theorem fetchMessageText_spec_witness :
    fetchMessageText historyErrBackend "C1" "1.0" none = ("", "") ∧
    fetchMessageText historyEmptyBackend "C1" "1.0" none = ("", "") ∧
    fetchMessageText historyMsgBackend "C1" "1.0" (some usersCacheW) =
      (resolveUserName (some usersCacheW) historyMsgW.user, cleanMessageText historyMsgW.text) ∧
    resolveUserName (some usersCacheW) "U123" = "Alice Example" ∧
    resolveUserName (some usersCacheW) "U999" = "U999" ∧
    resolveUserName none "U999" = "U999" ∧
    cleanList ("a ".data ++ '<' :: ("url".data ++ '|' :: ("lab".data ++ '>' :: " b".data))) =
      "a ".data.map newlineToSpace ++ "url".data.map newlineToSpace ++ cleanList " b".data ∧
    cleanList ("a ".data ++ '<' :: ("url".data ++ '>' :: " b".data)) =
      "a ".data.map newlineToSpace ++ "url".data.map newlineToSpace ++ cleanList " b".data ∧
    (cleanList ("x\ny".data)).all (fun c => c != '\n') = true :=
  ⟨fetchMessageText_spec.1 historyErrBackend "C1" "1.0" none "boom" rfl,
   fetchMessageText_spec.2.1 historyEmptyBackend "C1" "1.0" none rfl,
   fetchMessageText_spec.2.2.1 historyMsgBackend "C1" "1.0" (some usersCacheW)
     historyMsgW [] rfl,
   fetchMessageText_spec.2.2.2.1 usersCacheW "U123" { realName := "Alice Example" } rfl,
   fetchMessageText_spec.2.2.2.2.1 usersCacheW "U999" rfl,
   fetchMessageText_spec.2.2.2.2.2.1 "U999",
   fetchMessageText_spec.2.2.2.2.2.2.1 "a ".data "url".data "lab".data " b".data
     (by decide) (by decide) (by decide) (by decide),
   fetchMessageText_spec.2.2.2.2.2.2.2.1 "a ".data "url".data " b".data
     (by decide) (by decide) (by decide),
   fetchMessageText_spec.2.2.2.2.2.2.2.2 ("x\ny".data)⟩

end SlackMcp
